import Mathlib

/-!
Verification of the essay-exam portal core (exam lifecycle, submission
workflow, grading workflow, and the plagiarism similarity engine) against
its specification.

The embedding follows `src/app.py`:
* `createExam` embeds the POST branch of `create_exam` (field presence,
  date parsing, window check, integer parsing of the numeric fields).
  Date parsing (`datetime.fromisoformat`) is a library call and is passed
  in as a function `parseDT : String → Option Int`; timestamps are
  integers, which preserves the total order used by the comparisons.
* `submitEssay` embeds the POST branch of `take_exam` (timing guards,
  already-submitted guard, empty-essay guard, plagiarism scoring with
  its failure fallback, insertion of exactly one submission).  The
  similarity computation sits inside a `try/except` in the source, so it
  is passed in as `engine : String → List String → Option ℝ`, where
  `none` is an internal failure of the engine.
* `gradeSubmission` embeds the POST branch of `grade` (ownership guard,
  score range guard, the `$set` update of exactly four fields).
* The `Sim` namespace embeds the similarity pipeline the source builds
  from `TfidfVectorizer` (english stop words, at most 1000 features) and
  `cosine_similarity`: raw term counts, smoothed idf
  `log((1+n)/(1+df)) + 1`, cosine of the resulting vectors, maximum over
  the corpus.  The sklearn row L2-normalisation is omitted (cosine
  similarity is invariant under positive scaling of either argument),
  the `max_features` vocabulary cap is omitted (its selection depends
  only on the multiset of documents), and the stop-word list is a
  representative subset of the sklearn english list.
-/

/-- Model of the Python `str.strip()` method: drop leading and trailing whitespace.  Written
structurally over the character list so that it evaluates by kernel
reduction (the builtin `String.trim` does not reduce in the kernel). -/
def pyStrip (s : String) : String :=
  String.mk (((s.data.dropWhile Char.isWhitespace).reverse.dropWhile
    Char.isWhitespace).reverse)

/-- Model of the Python `int(str)` conversion on the core sign-and-digits forms: an optional
sign followed by a nonempty digit run parses to the signed value, and
anything else raises (`none`).  Written structurally over the character
list so that it evaluates by kernel reduction. -/
def pyInt (s : String) : Option Int :=
  match s.data with
  | [] => none
  | '-' :: ds =>
    if ds.isEmpty then none
    else if ds.all Char.isDigit then
      some (-(ds.foldl (fun n d => n * 10 + (d.toNat - 48)) 0 : Nat))
    else none
  | '+' :: ds =>
    if ds.isEmpty then none
    else if ds.all Char.isDigit then
      some ((ds.foldl (fun n d => n * 10 + (d.toNat - 48)) 0 : Nat))
    else none
  | ds =>
    if ds.all Char.isDigit then
      some ((ds.foldl (fun n d => n * 10 + (d.toNat - 48)) 0 : Nat))
    else none

/-- Validation failures of `create_exam` (each corresponds to one flash
message in the source). -/
inductive CreateError where
  | FieldsRequired
  | CloseNotAfterOpen
  | InvalidValues
deriving DecidableEq, Repr

/-- Failures of the submission workflow `take_exam`. -/
inductive SubmitError where
  | NotYetOpen
  | Closed
  | AlreadySubmitted
  | EmptyEssay
deriving DecidableEq, Repr

/-- Failures of the grading workflow `grade`. -/
inductive GradeError where
  | NotOwner
  | ScoreOutOfRange
deriving DecidableEq, Repr

/-- An exam record as inserted by `create_exam`. -/
structure Exam where
  title : String
  prompt : String
  openAt : Int
  closeAt : Int
  timeLimitMin : Int
  maxScore : Int
  createdBy : Nat
deriving DecidableEq, Repr

/-- A submission record: the five fields inserted by `take_exam`, plus the
four optional grading fields set by `grade`. -/
structure Submission where
  examId : Nat
  userId : Nat
  essayText : String
  submittedAt : Int
  plagiarismScore : ℝ
  score : Option Int := none
  comments : Option String := none
  gradedAt : Option Int := none
  gradedBy : Option Nat := none

/-- The POST branch of `create_exam` (src/app.py lines 140-179): the
`all([...])` presence check on the stripped title/prompt and the raw
remaining form strings, ISO date parsing (failure lands in the
`except ValueError` branch), the strict window check, and `int()` parsing
of the numeric fields (failure lands in the same `except ValueError`). -/
def createExam (parseDT : String → Option Int) (createdBy : Nat)
    (title prompt openAtStr closeAtStr timeLimit maxScore : String) :
    Except CreateError Exam :=
  if pyStrip title = "" ∨ pyStrip prompt = "" ∨ openAtStr = "" ∨ closeAtStr = "" ∨
      timeLimit = "" ∨ maxScore = "" then
    .error .FieldsRequired
  else
    match parseDT openAtStr, parseDT closeAtStr with
    | some openAt, some closeAt =>
      if closeAt ≤ openAt then
        .error .CloseNotAfterOpen
      else
        match pyInt timeLimit, pyInt maxScore with
        | some tl, some ms =>
          .ok { title := pyStrip title, prompt := pyStrip prompt,
                openAt := openAt, closeAt := closeAt,
                timeLimitMin := tl, maxScore := ms, createdBy := createdBy }
        | _, _ => .error .InvalidValues
    | _, _ => .error .InvalidValues

/-- The `find_one({"exam_id": ..., "user_id": ...})` lookup used by the
already-submitted guard of `take_exam`. -/
def hasSubmission (store : List Submission) (examId userId : Nat) : Bool :=
  store.any fun s => s.examId == examId && s.userId == userId

/-- The essays of all prior submissions for the exam, as collected by
`take_exam` line 292 (all students, whole store). -/
def priorEssays (store : List Submission) (examId : Nat) : List String :=
  (store.filter fun s => s.examId == examId).map fun s => s.essayText

/-- The POST branch of `take_exam` (src/app.py lines 255-314): timing
guards, already-submitted guard, empty-essay guard, plagiarism scoring
(engine failure caught and replaced by 0, empty corpus short-circuits to
0), then insertion of exactly one submission.  Returns the outcome
together with the resulting store. -/
def submitEssay (engine : String → List String → Option ℝ)
    (examId : Nat) (exam : Exam) (studentId : Nat) (essay : String)
    (store : List Submission) (now : Int) :
    Except SubmitError Submission × List Submission :=
  if now < exam.openAt then
    (.error .NotYetOpen, store)
  else if exam.closeAt < now then
    (.error .Closed, store)
  else if hasSubmission store examId studentId then
    (.error .AlreadySubmitted, store)
  else if pyStrip essay = "" then
    (.error .EmptyEssay, store)
  else
    let essayText := pyStrip essay
    let corpus := priorEssays store examId
    let plagiarismScore : ℝ :=
      if corpus = [] then 0 else (engine essayText corpus).getD 0
    let sub : Submission :=
      { examId := examId, userId := studentId, essayText := essayText,
        submittedAt := now, plagiarismScore := plagiarismScore }
    (.ok sub, store ++ [sub])

/-- The POST branch of `grade` (src/app.py lines 207-243): the ownership
check (`abort(403)` when the grader did not create the exam), the score
range check, and the `$set` update of exactly the four grading fields. -/
def gradeSubmission (sub : Submission) (exam : Exam) (graderId : Nat)
    (score : Int) (comments : String) (now : Int) :
    Except GradeError Submission :=
  if exam.createdBy ≠ graderId then
    .error .NotOwner
  else if score < 0 ∨ exam.maxScore < score then
    .error .ScoreOutOfRange
  else
    .ok { sub with score := some score, comments := some (pyStrip comments),
                   gradedAt := some now, gradedBy := some graderId }

/-- The at-most-one-submission-per-(exam, student) invariant on a store. -/
def uniquePerPair (store : List Submission) : Prop :=
  store.Pairwise fun a b => ¬(a.examId = b.examId ∧ a.userId = b.userId)

/-- A negative `find_one` result means no stored submission carries the
pair. -/
lemma hasSubmission_eq_false_iff (store : List Submission) (examId userId : Nat) :
    hasSubmission store examId userId = false ↔
      ∀ s ∈ store, ¬(s.examId = examId ∧ s.userId = userId) := by
  simp [hasSubmission, List.any_eq_false]

/-- Appending a submission whose pair is absent preserves the
at-most-one-per-pair invariant. -/
lemma uniquePerPair_append (store : List Submission) (sub : Submission)
    (h : uniquePerPair store)
    (hnew : ∀ s ∈ store, ¬(s.examId = sub.examId ∧ s.userId = sub.userId)) :
    uniquePerPair (store ++ [sub]) := by
  unfold uniquePerPair at h ⊢
  rw [List.pairwise_append]
  refine ⟨h, List.pairwise_singleton _ _, ?_⟩
  intro a ha b hb
  rw [List.mem_singleton] at hb
  subst hb
  exact hnew a ha

/-- The store returned by `submitEssay` is either untouched (any failure)
or extended by exactly one submission carrying the (examId, studentId)
pair, which was absent before. -/
lemma submitEssay_store_cases (engine : String → List String → Option ℝ)
    (examId : Nat) (exam : Exam) (studentId : Nat) (essay : String)
    (store : List Submission) (now : Int) :
    (submitEssay engine examId exam studentId essay store now).2 = store ∨
      (hasSubmission store examId studentId = false ∧
        ∃ sub : Submission, sub.examId = examId ∧ sub.userId = studentId ∧
          (submitEssay engine examId exam studentId essay store now).2 =
            store ++ [sub]) := by
  unfold submitEssay
  split_ifs with h1 h2 h3 h4
  · exact Or.inl rfl
  · exact Or.inl rfl
  · exact Or.inl rfl
  · exact Or.inl rfl
  · refine Or.inr ⟨by simpa using h3, ?_⟩
    exact ⟨_, rfl, rfl, rfl⟩

/-- C1 (amended): once a Submission exists for the pair, a further
`submitEssay` inside the open window fails with `AlreadySubmitted` and
leaves the store untouched; and no call whatsoever creates a second
Submission for an existing pair — the at-most-one-per-pair invariant is
preserved by every call.  (As written, the claim asserted
`AlreadySubmitted` regardless of `now`; the timing guards run first, so
outside the window the call fails with the timing error instead.) -/
theorem submitEssay_at_most_one (engine : String → List String → Option ℝ)
    (examId : Nat) (exam : Exam) (studentId : Nat) (essay : String)
    (store : List Submission) (now : Int) :
    (hasSubmission store examId studentId = true →
      exam.openAt ≤ now → now ≤ exam.closeAt →
      (submitEssay engine examId exam studentId essay store now).1 =
          .error .AlreadySubmitted ∧
        (submitEssay engine examId exam studentId essay store now).2 = store) ∧
    (uniquePerPair store →
      uniquePerPair (submitEssay engine examId exam studentId essay store now).2) := by
  constructor
  · intro hdup hopen hclose
    have h1 : ¬ now < exam.openAt := not_lt.mpr hopen
    have h2 : ¬ exam.closeAt < now := not_lt.mpr hclose
    simp [submitEssay, h1, h2, hdup]
  · intro hu
    rcases submitEssay_store_cases engine examId exam studentId essay store now with
      heq | ⟨habs, sub, hex, huser, heq⟩
    · rw [heq]; exact hu
    · rw [heq]
      refine uniquePerPair_append store sub hu ?_
      intro s hs
      rw [hex, huser]
      exact (hasSubmission_eq_false_iff store examId studentId).mp habs s hs

/-- Witness for `submitEssay_at_most_one` at a concrete duplicate inside
the open window. -/
theorem submitEssay_at_most_one_witness :
    ((submitEssay (fun _ _ => none) 1 ⟨"t", "p", 0, 10, 30, 100, 5⟩ 2 "y"
        [⟨1, 2, "x", 1, 0, none, none, none, none⟩] 5).1 =
        .error .AlreadySubmitted ∧
      (submitEssay (fun _ _ => none) 1 ⟨"t", "p", 0, 10, 30, 100, 5⟩ 2 "y"
        [⟨1, 2, "x", 1, 0, none, none, none, none⟩] 5).2 =
        [⟨1, 2, "x", 1, 0, none, none, none, none⟩]) ∧
    uniquePerPair (submitEssay (fun _ _ => none) 1 ⟨"t", "p", 0, 10, 30, 100, 5⟩ 2 "y"
        [⟨1, 2, "x", 1, 0, none, none, none, none⟩] 5).2 := by
  refine ⟨(submitEssay_at_most_one _ 1 _ 2 "y" _ 5).1 (by decide) (by norm_num) (by norm_num),
    (submitEssay_at_most_one _ 1 _ 2 "y" _ 5).2 ?_⟩
  exact List.pairwise_singleton _ _

/-- C1 counterexample: with a Submission already stored for the pair and
`now` past `closeAt`, the call fails with `Closed`, not
`AlreadySubmitted` — the timing guards run before the duplicate guard. -/
theorem submitEssay_duplicate_after_close_counterexample :
    hasSubmission [⟨1, 2, "x", 1, 0, none, none, none, none⟩] 1 2 = true ∧
    (submitEssay (fun _ _ => none) 1 ⟨"t", "p", 0, 10, 30, 100, 5⟩ 2 "y"
        [⟨1, 2, "x", 1, 0, none, none, none, none⟩] 20).1 = .error .Closed ∧
    SubmitError.Closed ≠ SubmitError.AlreadySubmitted := by
  refine ⟨by decide, rfl, by decide⟩

/-- C2: with a well-formed exam window, `submitEssay` fails with
`NotYetOpen` exactly when `now < openAt`, fails with `Closed` exactly
when `now > closeAt` (so at `now = openAt` and `now = closeAt` neither
timing guard fires), and a timing failure leaves the store untouched. -/
theorem submitEssay_timing (engine : String → List String → Option ℝ)
    (examId : Nat) (exam : Exam) (studentId : Nat) (essay : String)
    (store : List Submission) (now : Int)
    (hwin : exam.openAt < exam.closeAt) :
    ((submitEssay engine examId exam studentId essay store now).1 =
        .error .NotYetOpen ↔ now < exam.openAt) ∧
    ((submitEssay engine examId exam studentId essay store now).1 =
        .error .Closed ↔ exam.closeAt < now) ∧
    ((now < exam.openAt ∨ exam.closeAt < now) →
      (submitEssay engine examId exam studentId essay store now).2 = store) := by
  unfold submitEssay
  split_ifs with h1 h2 h3 h4 <;> simp_all <;> omega

/-- Witness for `submitEssay_timing` at a concrete exam window. -/
theorem submitEssay_timing_witness :
    ((submitEssay (fun _ _ => none) 1 ⟨"t", "p", 0, 10, 30, 100, 5⟩ 2 "hi" [] 0).1 =
        .error .NotYetOpen ↔ (0 : Int) < 0) ∧
    ((submitEssay (fun _ _ => none) 1 ⟨"t", "p", 0, 10, 30, 100, 5⟩ 2 "hi" [] 0).1 =
        .error .Closed ↔ (10 : Int) < 0) ∧
    (((0 : Int) < 0 ∨ (10 : Int) < 0) →
      (submitEssay (fun _ _ => none) 1 ⟨"t", "p", 0, 10, 30, 100, 5⟩ 2 "hi" [] 0).2 = []) :=
  submitEssay_timing (fun _ _ => none) 1 ⟨"t", "p", 0, 10, 30, 100, 5⟩ 2 "hi" [] 0
    (by norm_num)

/-- C3: once the timing, duplicate and empty-essay guards pass, an
internal failure of the similarity engine (`none`) is caught, the score
falls back to exactly 0, and exactly one new Submission is still
appended to the store. -/
theorem submitEssay_engine_failure (engine : String → List String → Option ℝ)
    (examId : Nat) (exam : Exam) (studentId : Nat) (essay : String)
    (store : List Submission) (now : Int)
    (hopen : exam.openAt ≤ now) (hclose : now ≤ exam.closeAt)
    (habs : hasSubmission store examId studentId = false)
    (hne : pyStrip essay ≠ "")
    (hfail : engine (pyStrip essay) (priorEssays store examId) = none) :
    submitEssay engine examId exam studentId essay store now =
      (.ok { examId := examId, userId := studentId, essayText := pyStrip essay,
             submittedAt := now, plagiarismScore := 0 },
       store ++ [{ examId := examId, userId := studentId, essayText := pyStrip essay,
                   submittedAt := now, plagiarismScore := 0 }]) := by
  have h1 : ¬ now < exam.openAt := not_lt.mpr hopen
  have h2 : ¬ exam.closeAt < now := not_lt.mpr hclose
  have h3 : ¬ hasSubmission store examId studentId = true := by simp [habs]
  unfold submitEssay
  rw [if_neg h1, if_neg h2, if_neg h3, if_neg hne]
  dsimp only
  by_cases hc : priorEssays store examId = []
  · rw [if_pos hc]
  · rw [if_neg hc, hfail]
    rfl

/-- Witness for `submitEssay_engine_failure`: a failing engine, one prior
submission by another student. -/
theorem submitEssay_engine_failure_witness :
    submitEssay (fun _ _ => none) 1 ⟨"t", "p", 0, 10, 30, 100, 5⟩ 2 " hi "
        [⟨1, 3, "prior", 0, 0, none, none, none, none⟩] 4 =
      (.ok { examId := 1, userId := 2, essayText := "hi",
             submittedAt := 4, plagiarismScore := 0 },
       [⟨1, 3, "prior", 0, 0, none, none, none, none⟩] ++
         [{ examId := 1, userId := 2, essayText := "hi",
            submittedAt := 4, plagiarismScore := 0 }]) :=
  submitEssay_engine_failure (fun _ _ => none) 1 ⟨"t", "p", 0, 10, 30, 100, 5⟩ 2 " hi "
    [⟨1, 3, "prior", 0, 0, none, none, none, none⟩] 4
    (by norm_num) (by norm_num) (by decide) (by decide) rfl

/-- C7 counterexample: `create_exam` performs no bound check on the
numeric fields — `time_limit = "0"` and `max_score = "-1"` are accepted
and an Exam is persisted, where the claim demands a `ValidationError`. -/
theorem createExam_no_bounds_counterexample :
    createExam pyInt 5 "T" "P" "1" "10" "0" "-1" =
      .ok { title := "T", prompt := "P", openAt := 1, closeAt := 10,
            timeLimitMin := 0, maxScore := -1, createdBy := 5 } := by
  rfl

/-- C7 (amended): the numeric rule actually enforced is integrality only.
When the presence, parsing and window guards pass, a numeric field that
does not parse as an integer yields a `ValidationError` and no Exam, and
any pair of parsed integers — with no sign or positivity restriction —
yields a persisted Exam carrying exactly those values. -/
theorem createExam_integral_only (parseDT : String → Option Int)
    (createdBy : Nat)
    (title prompt openAtStr closeAtStr timeLimit maxScore : String)
    (openAt closeAt : Int)
    (hne : ¬(pyStrip title = "" ∨ pyStrip prompt = "" ∨ openAtStr = "" ∨
      closeAtStr = "" ∨ timeLimit = "" ∨ maxScore = ""))
    (ho : parseDT openAtStr = some openAt)
    (hc : parseDT closeAtStr = some closeAt)
    (hw : openAt < closeAt) :
    ((pyInt timeLimit = none ∨ pyInt maxScore = none) →
      createExam parseDT createdBy title prompt openAtStr closeAtStr
        timeLimit maxScore = .error .InvalidValues) ∧
    (∀ tl ms : Int, pyInt timeLimit = some tl → pyInt maxScore = some ms →
      createExam parseDT createdBy title prompt openAtStr closeAtStr
        timeLimit maxScore =
        .ok { title := pyStrip title, prompt := pyStrip prompt,
              openAt := openAt, closeAt := closeAt,
              timeLimitMin := tl, maxScore := ms, createdBy := createdBy }) := by
  have hno : ¬ closeAt ≤ openAt := not_le.mpr hw
  constructor
  · intro hbad
    rcases hbad with hbad | hbad
    · simp [createExam, hne, ho, hc, hno, hbad]
    · rcases htl2 : pyInt timeLimit with _ | w <;>
        simp [createExam, hne, ho, hc, hno, hbad, htl2]
  · intro tl ms htl hms
    simp [createExam, hne, ho, hc, hno, htl, hms]

/-- Witness for `createExam_integral_only` at concrete form input. -/
theorem createExam_integral_only_witness :
    createExam pyInt 9 "T" "P" "1" "10" "7" "100" =
      .ok { title := pyStrip "T", prompt := pyStrip "P", openAt := 1,
            closeAt := 10, timeLimitMin := 7, maxScore := 100,
            createdBy := 9 } :=
  (createExam_integral_only pyInt 9 "T" "P" "1" "10" "7" "100" 1 10
    (by decide) rfl rfl (by norm_num)).2 7 100 rfl rfl

/-- C8: whenever the parsed timestamps satisfy `closeAt ≤ openAt` the
call fails with a `ValidationError` (no Exam value is produced), and
every Exam that `createExam` does produce satisfies
`openAt < closeAt`. -/
theorem createExam_window (parseDT : String → Option Int) (createdBy : Nat)
    (title prompt openAtStr closeAtStr timeLimit maxScore : String) :
    (∀ openAt closeAt : Int, parseDT openAtStr = some openAt →
      parseDT closeAtStr = some closeAt → closeAt ≤ openAt →
      ∃ err, createExam parseDT createdBy title prompt openAtStr closeAtStr
        timeLimit maxScore = .error err) ∧
    (∀ e, createExam parseDT createdBy title prompt openAtStr closeAtStr
        timeLimit maxScore = .ok e → e.openAt < e.closeAt) := by
  constructor
  · intro openAt closeAt ho hc hle
    unfold createExam
    by_cases hne : pyStrip title = "" ∨ pyStrip prompt = "" ∨ openAtStr = "" ∨
        closeAtStr = "" ∨ timeLimit = "" ∨ maxScore = ""
    · exact ⟨.FieldsRequired, by rw [if_pos hne]⟩
    · refine ⟨.CloseNotAfterOpen, ?_⟩
      rw [if_neg hne, ho, hc]
      simp [hle]
  · intro e he
    unfold createExam at he
    split_ifs at he with hne
    split at he
    case _ openAt closeAt =>
      split_ifs at he with hle
      split at he
      case _ tl ms =>
        injection he with h2
        subst h2
        simpa using not_le.mp hle
      case _ => simp at he
    case _ => simp at he

/-- Witness for `createExam_window` at concrete inverted timestamps. -/
theorem createExam_window_witness :
    ∃ err, createExam pyInt 9 "T" "P" "10" "5" "7" "100" =
      .error err :=
  (createExam_window pyInt 9 "T" "P" "10" "5" "7" "100").1 10 5
    rfl rfl (by norm_num)

/-- C9: for the creator of the exam, grading succeeds exactly when
`0 ≤ score ≤ exam.maxScore` (both boundaries inclusive); outside the
range it fails with `ScoreOutOfRange` and produces no updated
Submission. -/
theorem gradeSubmission_range (sub : Submission) (exam : Exam)
    (graderId : Nat) (score : Int) (comments : String) (now : Int)
    (hown : exam.createdBy = graderId) :
    ((∃ r, gradeSubmission sub exam graderId score comments now = .ok r) ↔
      0 ≤ score ∧ score ≤ exam.maxScore) ∧
    (¬(0 ≤ score ∧ score ≤ exam.maxScore) →
      gradeSubmission sub exam graderId score comments now =
        .error .ScoreOutOfRange) := by
  unfold gradeSubmission
  rw [if_neg (by simp [hown])]
  by_cases hr : score < 0 ∨ exam.maxScore < score
  · rw [if_pos hr]
    constructor
    · constructor
      · rintro ⟨r, hr2⟩; cases hr2
      · intro h; omega
    · intro _; rfl
  · rw [if_neg hr]
    constructor
    · constructor
      · intro _; omega
      · intro _; exact ⟨_, rfl⟩
    · intro h; omega

/-- Witness for `gradeSubmission_range`: the creator grades with the
maximal allowed score. -/
theorem gradeSubmission_range_witness :
    ((∃ r, gradeSubmission ⟨1, 2, "e", 3, 0, none, none, none, none⟩
        ⟨"t", "p", 0, 10, 30, 100, 5⟩ 5 100 "good" 7 = .ok r) ↔
      (0 : Int) ≤ 100 ∧ (100 : Int) ≤ 100) ∧
    (¬((0 : Int) ≤ 100 ∧ (100 : Int) ≤ 100) →
      gradeSubmission ⟨1, 2, "e", 3, 0, none, none, none, none⟩
        ⟨"t", "p", 0, 10, 30, 100, 5⟩ 5 100 "good" 7 =
        .error .ScoreOutOfRange) :=
  gradeSubmission_range ⟨1, 2, "e", 3, 0, none, none, none, none⟩
    ⟨"t", "p", 0, 10, 30, 100, 5⟩ 5 100 "good" 7 rfl

/-- C10: every successful grading call returns the stored Submission with
exactly the four grading fields set (`score`, trimmed `comments`,
`gradedAt = now`, `gradedBy = graderId`) and all five submission-time
fields unchanged — in particular `plagiarismScore` is never recomputed,
and a repeated grade (the theorem applies to an already-graded `sub` as
well) overwrites only those four fields. -/
theorem gradeSubmission_frame (sub : Submission) (exam : Exam)
    (graderId : Nat) (score : Int) (comments : String) (now : Int)
    (r : Submission)
    (h : gradeSubmission sub exam graderId score comments now = .ok r) :
    r.examId = sub.examId ∧ r.userId = sub.userId ∧
    r.essayText = sub.essayText ∧ r.submittedAt = sub.submittedAt ∧
    r.plagiarismScore = sub.plagiarismScore ∧
    r.score = some score ∧ r.comments = some (pyStrip comments) ∧
    r.gradedAt = some now ∧ r.gradedBy = some graderId := by
  unfold gradeSubmission at h
  split_ifs at h
  cases h
  simp

/-- Witness for `gradeSubmission_frame`: grading an already-graded
concrete submission overwrites only the four grading fields. -/
theorem gradeSubmission_frame_witness :
    (⟨1, 2, "e", 3, 0, some 40, some "ok", some 6, some 5⟩ : Submission).score
        = some 40 ∧
    ((⟨1, 2, "e", 3, 0, some 50, some "good", some 7, some 5⟩ :
        Submission).examId = 1 ∧
      (⟨1, 2, "e", 3, 0, some 50, some "good", some 7, some 5⟩ :
        Submission).userId = 2 ∧
      (⟨1, 2, "e", 3, 0, some 50, some "good", some 7, some 5⟩ :
        Submission).essayText = "e" ∧
      (⟨1, 2, "e", 3, 0, some 50, some "good", some 7, some 5⟩ :
        Submission).submittedAt = 3 ∧
      (⟨1, 2, "e", 3, 0, some 50, some "good", some 7, some 5⟩ :
        Submission).plagiarismScore = 0 ∧
      (⟨1, 2, "e", 3, 0, some 50, some "good", some 7, some 5⟩ :
        Submission).score = some 50 ∧
      (⟨1, 2, "e", 3, 0, some 50, some "good", some 7, some 5⟩ :
        Submission).comments = some (pyStrip "good") ∧
      (⟨1, 2, "e", 3, 0, some 50, some "good", some 7, some 5⟩ :
        Submission).gradedAt = some 7 ∧
      (⟨1, 2, "e", 3, 0, some 50, some "good", some 7, some 5⟩ :
        Submission).gradedBy = some 5) := by
  refine ⟨rfl, ?_⟩
  have h := gradeSubmission_frame
    ⟨1, 2, "e", 3, 0, some 40, some "ok", some 6, some 5⟩
    ⟨"t", "p", 0, 10, 30, 100, 5⟩ 5 50 "good" 7
    ⟨1, 2, "e", 3, 0, some 50, some (pyStrip "good"), some 7, some 5⟩ rfl
  exact h

namespace Sim

/-- A representative subset of the sklearn english stop-word list used by
`TfidfVectorizer` with english stop words. -/
def stopWords : List String :=
  ["a", "about", "above", "an", "and", "are", "as", "at", "be", "but",
   "by", "for", "from", "had", "has", "have", "he", "her", "his", "if",
   "in", "is", "it", "its", "no", "not", "of", "on", "or", "she", "that",
   "the", "their", "them", "they", "this", "to", "was", "were", "will",
   "with"]

/-- The sklearn analyzer: lower-case, split into maximal runs of word
characters (the token pattern keeps runs of length at least 2), then drop
stop-words.  Written structurally over the character list. -/
def tokenize (s : String) : List String :=
  (((s.data.map Char.toLower).splitOnP fun c => !(c.isAlphanum || c == '_')).map
      fun l => String.mk l).filter
    fun w => decide (2 ≤ w.length) && !(stopWords.contains w)

/-- Raw term frequency of `t` in the tokenized document `d`. -/
def tf (d : List String) (t : String) : Nat := d.count t

/-- Document frequency of `t` over the fitted document list. -/
def dfCount (docs : List (List String)) (t : String) : Nat :=
  docs.countP fun d => d.contains t

/-- The fitted vocabulary: every term occurring in some document. -/
def vocab (docs : List (List String)) : Finset String :=
  docs.flatten.toFinset

noncomputable section

open Real

/-- The sklearn smoothed inverse document frequency
`log((1 + n) / (1 + df)) + 1`. -/
def idf (docs : List (List String)) (t : String) : ℝ :=
  Real.log ((1 + docs.length) / (1 + dfCount docs t)) + 1

/-- TF-IDF weight of term `t` for document `d` under the jointly fitted
model `docs`. -/
def weight (docs : List (List String)) (d : List String) (t : String) : ℝ :=
  (tf d t : ℝ) * idf docs t

/-- Dot product of the TF-IDF vectors of `d` and `e` over the fitted
vocabulary. -/
def dotW (docs : List (List String)) (d e : List String) : ℝ :=
  ∑ t in vocab docs, weight docs d t * weight docs e t

/-- Cosine similarity of the TF-IDF vectors of `d` and `e` (division by a
zero norm yields 0, matching the zero-vector convention). -/
def cosSim (docs : List (List String)) (d e : List String) : ℝ :=
  dotW docs d e / (Real.sqrt (dotW docs d d) * Real.sqrt (dotW docs e e))

/-- Python `max(l)` over a possibly empty similarity list, defaulting to 0
exactly as `max(similarities) if similarities.size > 0 else 0`. -/
def pyMax (l : List ℝ) : ℝ :=
  match l with
  | [] => 0
  | a :: t => t.foldl max a

/-- The similarity engine of `take_exam` lines 296-301: fit TF-IDF jointly
over the new document and the corpus, compare the document row against
every corpus row, and take the maximum similarity (0 for an empty
corpus, short-circuited before any model is built). -/
def score (document : String) (corpus : List String) : ℝ :=
  if corpus = [] then 0
  else
    let docs := (document :: corpus).map tokenize
    pyMax (corpus.map fun e => cosSim docs (tokenize document) (tokenize e))

end

lemma dfCount_le_length (docs : List (List String)) (t : String) :
    dfCount docs t ≤ docs.length :=
  List.countP_le_length _

lemma idf_nonneg (docs : List (List String)) (t : String) :
    0 ≤ idf docs t := by
  have hd : (0 : ℝ) < 1 + dfCount docs t := by positivity
  have h1 : (1 : ℝ) ≤ (1 + docs.length) / (1 + dfCount docs t) := by
    rw [le_div_iff₀ hd, one_mul]
    have := dfCount_le_length docs t
    have : (dfCount docs t : ℝ) ≤ docs.length := by exact_mod_cast this
    linarith
  have := Real.log_nonneg h1
  unfold idf
  linarith

lemma weight_nonneg (docs : List (List String)) (d : List String)
    (t : String) : 0 ≤ weight docs d t :=
  mul_nonneg (Nat.cast_nonneg _) (idf_nonneg docs t)

lemma dotW_nonneg (docs : List (List String)) (d e : List String) :
    0 ≤ dotW docs d e :=
  Finset.sum_nonneg fun t _ =>
    mul_nonneg (weight_nonneg docs d t) (weight_nonneg docs e t)

lemma dotW_self_eq_sum_sq (docs : List (List String)) (d : List String) :
    dotW docs d d = ∑ t in vocab docs, (weight docs d t) ^ 2 :=
  Finset.sum_congr rfl fun t _ => (sq (weight docs d t)).symm

lemma cosSim_nonneg (docs : List (List String)) (d e : List String) :
    0 ≤ cosSim docs d e :=
  div_nonneg (dotW_nonneg docs d e)
    (mul_nonneg (Real.sqrt_nonneg _) (Real.sqrt_nonneg _))

lemma cosSim_le_one (docs : List (List String)) (d e : List String) :
    cosSim docs d e ≤ 1 := by
  apply div_le_one_of_le₀
  · calc dotW docs d e
        ≤ Real.sqrt (∑ t in vocab docs, (weight docs d t) ^ 2) *
            Real.sqrt (∑ t in vocab docs, (weight docs e t) ^ 2) :=
          Real.sum_mul_le_sqrt_mul_sqrt _ _ _
      _ = Real.sqrt (dotW docs d d) * Real.sqrt (dotW docs e e) := by
          rw [dotW_self_eq_sum_sq, dotW_self_eq_sum_sq]
  · exact mul_nonneg (Real.sqrt_nonneg _) (Real.sqrt_nonneg _)

lemma foldl_max_mem (l : List ℝ) (a : ℝ) :
    l.foldl max a = a ∨ l.foldl max a ∈ l := by
  induction l generalizing a with
  | nil => exact Or.inl rfl
  | cons b t ih =>
    rw [List.foldl_cons]
    rcases ih (max a b) with h | h
    · rcases max_choice a b with h2 | h2
      · rw [h, h2]; exact Or.inl rfl
      · rw [h, h2]; exact Or.inr (List.mem_cons_self b t)
    · exact Or.inr (List.mem_cons_of_mem b h)

lemma le_foldl_max (l : List ℝ) (a : ℝ) :
    a ≤ l.foldl max a ∧ ∀ x ∈ l, x ≤ l.foldl max a := by
  induction l generalizing a with
  | nil => simp
  | cons b t ih =>
    rw [List.foldl_cons]
    refine ⟨le_trans (le_max_left a b) (ih (max a b)).1, ?_⟩
    intro x hx
    rcases List.mem_cons.mp hx with rfl | hx
    · exact le_trans (le_max_right a x) (ih (max a x)).1
    · exact (ih (max a b)).2 x hx

lemma pyMax_spec (l : List ℝ) (h : l ≠ []) :
    pyMax l ∈ l ∧ ∀ x ∈ l, x ≤ pyMax l := by
  match l with
  | a :: t =>
    rw [show pyMax (a :: t) = t.foldl max a from rfl]
    constructor
    · rcases foldl_max_mem t a with h2 | h2
      · rw [h2]; exact List.mem_cons_self a t
      · exact List.mem_cons_of_mem a h2
    · intro x hx
      rcases List.mem_cons.mp hx with rfl | hx
      · exact (le_foldl_max t x).1
      · exact (le_foldl_max t a).2 x hx

lemma pyMax_perm (l₁ l₂ : List ℝ) (h : l₁.Perm l₂) :
    pyMax l₁ = pyMax l₂ := by
  rcases eq_or_ne l₁ [] with rfl | h1
  · rw [h.symm.eq_nil]
  · have h2 : l₂ ≠ [] := fun he => h1 (by rw [he] at h; exact h.eq_nil)
    obtain ⟨m1, ub1⟩ := pyMax_spec l₁ h1
    obtain ⟨m2, ub2⟩ := pyMax_spec l₂ h2
    exact le_antisymm (ub2 _ (h.mem_iff.mp m1)) (ub1 _ (h.mem_iff.mpr m2))

lemma vocab_perm {docs₁ docs₂ : List (List String)} (h : docs₁.Perm docs₂) :
    vocab docs₁ = vocab docs₂ := by
  unfold vocab
  ext a
  rw [List.mem_toFinset, List.mem_toFinset, (h.flatten).mem_iff]

lemma idf_perm {docs₁ docs₂ : List (List String)} (h : docs₁.Perm docs₂)
    (t : String) : idf docs₁ t = idf docs₂ t := by
  unfold idf dfCount
  rw [h.length_eq, h.countP_eq]

lemma weight_perm {docs₁ docs₂ : List (List String)} (h : docs₁.Perm docs₂)
    (d : List String) (t : String) : weight docs₁ d t = weight docs₂ d t := by
  unfold weight
  rw [idf_perm h]

lemma dotW_perm {docs₁ docs₂ : List (List String)} (h : docs₁.Perm docs₂)
    (d e : List String) : dotW docs₁ d e = dotW docs₂ d e := by
  unfold dotW
  rw [vocab_perm h]
  exact Finset.sum_congr rfl fun t _ => by rw [weight_perm h, weight_perm h]

lemma cosSim_perm {docs₁ docs₂ : List (List String)} (h : docs₁.Perm docs₂)
    (d e : List String) : cosSim docs₁ d e = cosSim docs₂ d e := by
  unfold cosSim
  rw [dotW_perm h, dotW_perm h, dotW_perm h]

end Sim

/-- C4: for a non-empty corpus, the engine result is the maximum of the
cosine similarities between the TF-IDF vector of the document and the
TF-IDF vector of each corpus item (it is one of those similarities and an
upper bound of all of them), and it lies in the interval [0, 1]. -/
theorem score_max_cosine_and_bounds (document c0 : String)
    (cs : List String) :
    (Sim.score document (c0 :: cs) ∈
      (c0 :: cs).map fun e =>
        Sim.cosSim ((document :: c0 :: cs).map Sim.tokenize)
          (Sim.tokenize document) (Sim.tokenize e)) ∧
    (∀ x ∈ (c0 :: cs).map fun e =>
        Sim.cosSim ((document :: c0 :: cs).map Sim.tokenize)
          (Sim.tokenize document) (Sim.tokenize e),
      x ≤ Sim.score document (c0 :: cs)) ∧
    0 ≤ Sim.score document (c0 :: cs) ∧
    Sim.score document (c0 :: cs) ≤ 1 := by
  have hs : Sim.score document (c0 :: cs) =
      Sim.pyMax ((c0 :: cs).map fun e =>
        Sim.cosSim ((document :: c0 :: cs).map Sim.tokenize)
          (Sim.tokenize document) (Sim.tokenize e)) := by
    unfold Sim.score
    rw [if_neg (by simp)]
  obtain ⟨hmem, hub⟩ := Sim.pyMax_spec
    ((c0 :: cs).map fun e =>
      Sim.cosSim ((document :: c0 :: cs).map Sim.tokenize)
        (Sim.tokenize document) (Sim.tokenize e)) (by simp)
  have h0 : 0 ≤ Sim.score document (c0 :: cs) := by
    rw [hs]
    rcases List.mem_map.mp hmem with ⟨e, _, he⟩
    rw [← he]
    exact Sim.cosSim_nonneg _ _ _
  have h1 : Sim.score document (c0 :: cs) ≤ 1 := by
    rw [hs]
    rcases List.mem_map.mp hmem with ⟨e, _, he⟩
    rw [← he]
    exact Sim.cosSim_le_one _ _ _
  exact ⟨hs ▸ hmem, fun x hx => hs ▸ hub x hx, h0, h1⟩

/-- C5: with an empty corpus the engine returns exactly 0, before (and
without) fitting any term-weighting model. -/
theorem score_empty_corpus (document : String) :
    Sim.score document [] = 0 := by
  simp [Sim.score]

/-- C6: the engine result is invariant under any permutation of the
corpus: the fitted model depends on the documents only through their
multiset, and the maximum is permutation-invariant. -/
theorem score_perm_invariant (document : String) (c₁ c₂ : List String)
    (hp : c₁.Perm c₂) :
    Sim.score document c₁ = Sim.score document c₂ := by
  rcases eq_or_ne c₁ [] with rfl | h1
  · rw [hp.symm.eq_nil]
  · have h2 : c₂ ≠ [] := fun he => h1 (by rw [he] at hp; exact hp.eq_nil)
    unfold Sim.score
    rw [if_neg h1, if_neg h2]
    dsimp only
    have hdocs : ((document :: c₁).map Sim.tokenize).Perm
        ((document :: c₂).map Sim.tokenize) := (hp.cons document).map Sim.tokenize
    have hmap : c₁.map (fun e =>
          Sim.cosSim ((document :: c₁).map Sim.tokenize)
            (Sim.tokenize document) (Sim.tokenize e)) =
        c₁.map (fun e =>
          Sim.cosSim ((document :: c₂).map Sim.tokenize)
            (Sim.tokenize document) (Sim.tokenize e)) :=
      List.map_congr_left fun e _ => Sim.cosSim_perm hdocs _ _
    rw [hmap]
    exact Sim.pyMax_perm _ _ (hp.map _)

/-- Witness for `score_perm_invariant` at a concrete two-element corpus,
with the permutation given by an explicit swap. -/
theorem score_perm_invariant_witness :
    Sim.score "alpha beta" ["beta gamma", "delta"] =
      Sim.score "alpha beta" ["delta", "beta gamma"] :=
  score_perm_invariant "alpha beta" ["beta gamma", "delta"]
    ["delta", "beta gamma"] (List.Perm.swap "delta" "beta gamma" [])
